import Mathlib

/-!
Verification of the anti_fish scam-analysis backend.

This file gives a shallow embedding in Lean 4 of the pipeline-orchestration
and evidence-aggregation core of the repository (src/app.py,
src/agents/link_analyzer_agent.py, src/mcp/tools/{fetch,whois,dns}.py,
src/schemas/message_artifact.py) and proves the frozen claims about it.

Modelling conventions:
* Python strings scanned character-wise are modelled as `List Char`;
  identifier-like strings (names, labels) stay `String`.
* Python `x in s` substring tests are modelled by `containsSub`, proved
  equivalent to the mathematical occurrence predicate `OccursIn`.
* External effects (HTTP GET, `whois.whois`, `dns.resolver.resolve`,
  `BeautifulSoup` parsing, `urlparse(...).netloc`, and the four opaque
  Gemini collaborator calls) are oracles carried in environment records;
  an oracle returning `Except.error e` models the Python call raising `e`.
* A Python function raising is modelled by `Except.error`; `try/except`
  blocks are translated into the corresponding `match`.
* Timestamps are abstracted to integer calendar days (`nowDay`); sub-day
  timestamps appear only as fixed second offsets in the static timeline.
-/

namespace AntiFish

/-! ### Substring matching (Python `needle in haystack`) -/

/-- Python `haystack.startswith(needle)` on character lists. -/
def startsWith : List Char → List Char → Bool
  | [], _ => true
  | _ :: _, [] => false
  | a :: as, b :: bs => a == b && startsWith as bs

/-- Python `needle in haystack` substring test on character lists. -/
def containsSub (needle : List Char) : List Char → Bool
  | [] => needle.isEmpty
  | c :: t => startsWith needle (c :: t) || containsSub needle t

/-- The mathematical occurrence predicate: `needle` appears contiguously in
`haystack`. -/
def OccursIn (needle haystack : List Char) : Prop :=
  ∃ l r, haystack = l ++ needle ++ r

theorem startsWith_iff (n h : List Char) :
    startsWith n h = true ↔ ∃ t, h = n ++ t := by
  induction n generalizing h with
  | nil => simp [startsWith]
  | cons a as ih =>
    cases h with
    | nil => simp [startsWith]
    | cons b bs =>
      simp only [startsWith, Bool.and_eq_true, beq_iff_eq, ih]
      constructor
      · rintro ⟨rfl, t, rfl⟩; exact ⟨t, rfl⟩
      · rintro ⟨t, ht⟩
        injection ht with h1 h2
        exact ⟨h1.symm, t, h2⟩

theorem containsSub_iff (n h : List Char) :
    containsSub n h = true ↔ OccursIn n h := by
  induction h with
  | nil =>
    simp only [containsSub, List.isEmpty_iff, OccursIn]
    constructor
    · rintro rfl; exact ⟨[], [], rfl⟩
    · rintro ⟨l, r, hl⟩
      rcases List.append_eq_nil.mp hl.symm with ⟨h1, h2⟩
      rcases List.append_eq_nil.mp h1 with ⟨-, h3⟩
      exact h3
  | cons c t ih =>
    simp only [containsSub, Bool.or_eq_true, startsWith_iff, ih, OccursIn]
    constructor
    · rintro (⟨s, hs⟩ | ⟨l, r, rfl⟩)
      · exact ⟨[], s, by simpa using hs⟩
      · exact ⟨c :: l, r, rfl⟩
    · rintro ⟨l, r, hl⟩
      cases l with
      | nil => exact Or.inl ⟨r, by simpa using hl⟩
      | cons x xs =>
        right
        injection hl with h1 h2
        exact ⟨xs, r, h2⟩

/-! ### Orchestrator pure helpers (src/app.py) -/

/-- `_map_threat_type` (src/app.py:202-211): maps the raw `scam_type` string
to the UI ThreatType taxonomy by case-insensitive substring matching. -/
def mapThreatType (scam_type : String) : String :=
  let u := scam_type.toList.map Char.toUpper
  if containsSub "PHISHING".toList u then "FAKE_EMAIL_PHISHING"
  else if containsSub "MALWARE".toList u || containsSub "VIRUS".toList u then
    "FAKE_WEBSITE_MALICIOUS_LINK"
  else if containsSub "SCAM".toList u || containsSub "SOCIAL".toList u then
    "HIDDEN_FRAUD_RING_SOCIAL_SCAM"
  else "OTHER"

/-- One entry of the `recommendedActions` list (src/app.py:213-242). -/
structure RecommendedAction where
  title : String
  priority : String
  detail : String
  deriving DecidableEq, Repr

/-- The risk-assessment dictionary returned by the Scoring collaborator.
Fields the orchestrator reads via `.get` are `Option`s (absent key = `none`);
the score is `ℕ` per the spec contract `riskScore: int[0,100]`. -/
structure RiskAssessment where
  risk_score : Option Nat
  scam_type : Option String
  reasons : Option (List String)
  recommended_actions : Option (List RecommendedAction)
  deriving DecidableEq, Repr

/-- `_generate_recommendations` (src/app.py:213-242): default action list
derived from `risk_assessment.get("risk_score", 0)`. -/
def generateRecommendations (risk : RiskAssessment) : List RecommendedAction :=
  let score := risk.risk_score.getD 0
  if score > 70 then
    [⟨"Do not click any links", "high", "High risk of phishing or malware."⟩,
     ⟨"Block the sender", "high", "Prevent further contact."⟩]
  else if score > 30 then
    [⟨"Verify sender identity", "med",
      "Contact them through a separate, trusted channel."⟩]
  else
    [⟨"No immediate action needed", "low",
      "Message appears safe, but stay vigilant."⟩]

/-- Python `a or b` for string-valued dict fields (`None` and `""` are
falsy), as used for `sourceName` (src/app.py:155). -/
def pyOrStr (v : Option String) (d : String) : String :=
  match v with
  | some s => if s.isEmpty then d else s
  | none => d

/-- Python `risk_assessment.get("recommended_actions") or _generate_recommendations(...)`
(src/app.py:166): `None` and the empty list are falsy. -/
def recommendedActionsOf (risk : RiskAssessment) : List RecommendedAction :=
  match risk.recommended_actions with
  | some l => if l.isEmpty then generateRecommendations risk else l
  | none => generateRecommendations risk

/-- Python `dict.update`: existing keys keep their position and take the new
value, novel keys are appended in order (src/app.py:117). -/
def dictUpdate (old upd : List (String × String)) : List (String × String) :=
  (old.map fun p =>
    match upd.find? (fun q => q.1 == p.1) with
    | some q => q
    | none => p) ++
  upd.filter (fun q => ¬ old.any (fun p => p.1 == q.1))

/-! ### Page signal extractor (src/mcp/tools/fetch.py:37-96) -/

/-- One `<form>` element as seen by BeautifulSoup: whether it contains an
`<input type="password">`, and its `get_text()`. -/
structure HtmlForm where
  hasPasswordInput : Bool
  text : List Char
  deriving DecidableEq, Repr

/-- The parse result of `BeautifulSoup(html_content, 'html.parser')`:
its `find_all('form')` list and its full `get_text()`. -/
structure Soup where
  forms : List HtmlForm
  text : List Char
  deriving DecidableEq, Repr

/-- The success payload of `extract_page_signals`. -/
structure SignalsPayload where
  login_form_detected : Bool
  password_field_detected : Bool
  brand_keywords_found : List (List Char)
  suspicious_patterns : List String
  analysis_note : String
  deriving DecidableEq, Repr

/-- `'login' in text or 'sign in' in text` on a form's lowercased text
(src/mcp/tools/fetch.py:67-69). -/
def loginKeywordHit (t : List Char) : Bool :=
  containsSub "login".toList (t.map Char.toLower) ||
  containsSub "sign in".toList (t.map Char.toLower)

/-- The `for form in forms:` loop of src/mcp/tools/fetch.py:60-69, carrying
the accumulated `login_form` flag; returns `(login_form, password_field)`.
A form with a password input sets both flags and `break`s. -/
def scanForms : List HtmlForm → Bool → Bool × Bool
  | [], login_form => (login_form, false)
  | form :: rest, login_form =>
    if form.hasPasswordInput then (true, true)
    else scanForms rest (login_form || loginKeywordHit form.text)

/-- The fixed brand vocabulary `common_brands` (src/mcp/tools/fetch.py:73). -/
def commonBrands : List (List Char) :=
  ["paypal", "google", "microsoft", "apple", "facebook", "instagram",
   "netflix", "amazon", "bank", "chase", "wells fargo"].map String.toList

/-- The pure part of `extract_page_signals` operating on the parsed page
(src/mcp/tools/fetch.py:53-96). -/
def extractSignalsOfSoup (url : List Char) (soup : Soup) : SignalsPayload :=
  let fl := scanForms soup.forms false
  { login_form_detected := fl.1
    password_field_detected := fl.2
    brand_keywords_found :=
      commonBrands.filter (fun b => containsSub b (soup.text.map Char.toLower))
    suspicious_patterns :=
      (if containsSub "ngrok".toList url then ["ngrok_tunnel"] else []) ++
      (if url.contains '@' then ["url_has_at_symbol"] else [])
    analysis_note :=
      if soup.forms.isEmpty then "No HTML forms detected on page" else "" }

/-! ### Evidence source adapters (src/mcp/tools/) -/

/-- An `httpx` response as consumed by `fetch_url`. -/
structure HttpResp where
  finalUrl : String
  redirectChain : List String
  statusCode : Nat
  headers : List (String × String)
  text : List Char
  deriving DecidableEq, Repr

/-- Success payload of `fetch_url` (src/mcp/tools/fetch.py:20-28). -/
structure FetchSuccess where
  final_url : String
  redirect_chain : List String
  status_code : Nat
  headers : List (String × String)
  html_content : List Char
  deriving DecidableEq, Repr

/-- Result of `fetch_url`: the success dict or the `{url, error}` dict. -/
inductive FetchOutput
  | success (p : FetchSuccess)
  | failure (url : String) (error : String)
  deriving DecidableEq, Repr

/-- The value of the `creation_date` attribute of a `whois.whois` result:
`None`, a single datetime, or a list of datetimes (dates abstracted to UTC
calendar-day integers). -/
inductive CreationDateField
  | absent
  | one (day : Int)
  | many (days : List Int)
  deriving DecidableEq, Repr

/-- The fields of a `whois.whois(domain)` result that `whois_lookup` reads.
`text` models `w.text` with `None`/`""` collapsed to `[]` (both falsy). -/
structure WhoisRec where
  creation_date : CreationDateField
  registrar : Option String
  text : List Char
  deriving DecidableEq, Repr

/-- Success payload of `whois_lookup` (src/mcp/tools/whois.py:32-39);
`raw_whois` (`str(w)`) is not modelled. -/
structure WhoisSuccess where
  domain : String
  creation_date : Option Int
  age_days : Int
  registrar : Option String
  privacy_protection : Bool
  deriving DecidableEq, Repr

/-- Result of `whois_lookup`: success dict or the `{domain, error}` dict. -/
inductive WhoisOutput
  | success (p : WhoisSuccess)
  | failure (domain : String) (error : String)
  deriving DecidableEq, Repr

/-- Result of `get_dns_records`: the per-type record dict, or the
`{error}` dict produced by the (unreachable) outer `except`. -/
inductive DnsOutput
  | records (recs : List (String × List String))
  | failure (error : String)
  deriving DecidableEq, Repr

/-- Result of `extract_page_signals`: the signals payload or an
`{error}` dict (from its internal fallback fetch failing). -/
inductive SignalsResult
  | payload (p : SignalsPayload)
  | failure (error : String)
  deriving DecidableEq, Repr

/-- The Gemini evidence-merge output of `LinkAnalyzerAgent.analyze`
(the parsed JSON `analysis` object; opaque collaborator output). -/
structure MergedFact where
  json : String
  deriving DecidableEq, Repr

/-- Oracles for every external effect reached from the evidence layer. An
oracle returning `.error e` models the Python call raising `e`. -/
structure AggEnv where
  /-- `httpx.Client(...).get(url)` incl. network/timeout failures. -/
  httpGet : String → Except String HttpResp
  /-- `BeautifulSoup(html, 'html.parser')`. -/
  parseHtml : List Char → Soup
  /-- `urlparse(url).netloc`; `.error` models `urlparse` raising (it does,
  e.g. `ValueError: Invalid IPv6 URL` for bracket URLs such as
  `"http://[abc"`), and this call sits outside any `try` in the per-URL
  loop (src/agents/link_analyzer_agent.py:42). -/
  netloc : String → Except String String
  /-- `whois.whois(domain)`. -/
  whoisRaw : String → Except String WhoisRec
  /-- `datetime.now(timezone.utc)` as a calendar day. -/
  nowDay : Int
  /-- `dns.resolver.resolve(domain, rtype)`. -/
  resolve : String → String → Except String (List String)
  /-- The Gemini merge call of `LinkAnalyzerAgent.analyze` (generate_content
  + JSON parse); `.error` models any exception in that `try` block. -/
  gemini : String → FetchOutput → SignalsResult → WhoisOutput →
           Except String MergedFact

/-- `fetch_url` (src/mcp/tools/fetch.py:6-35): HTTP GET with redirects,
content truncated to 10000 characters; every raise is converted to the
`{url, error}` dict. -/
def fetch_url (env : AggEnv) (url : String) : FetchOutput :=
  match env.httpGet url with
  | .ok r =>
    .success ⟨r.finalUrl, r.redirectChain, r.statusCode, r.headers,
              r.text.take 10000⟩
  | .error e => .failure url e

/-- `extract_page_signals` (src/mcp/tools/fetch.py:37-96). A falsy
`html_content` (`None` or `""`) triggers an internal `fetch_url` call whose
failure is returned as the `{error}` dict. -/
def extract_page_signals (env : AggEnv) (url : String)
    (html_content : Option (List Char)) : SignalsResult :=
  let fetched : Except String (List Char) :=
    match html_content with
    | some h =>
      if h.isEmpty then
        match fetch_url env url with
        | .success p => .ok p.html_content
        | .failure _ e => .error e
      else .ok h
    | none =>
      match fetch_url env url with
      | .success p => .ok p.html_content
      | .failure _ e => .error e
  match fetched with
  | .error e => .failure e
  | .ok html => .payload (extractSignalsOfSoup url.toList (env.parseHtml html))

/-- The privacy keyword list of src/mcp/tools/whois.py:29. -/
def privacyKeywords : List (List Char) :=
  ["privacy", "redacted", "protected", "proxy", "guard"].map String.toList

/-- `whois_lookup` (src/mcp/tools/whois.py:5-48). A `creation_date` that is
an empty list makes `creation_date[0]` raise IndexError, caught by the same
`try` into the error dict. Timezone normalization is absorbed by modelling
dates as UTC days. -/
def whois_lookup (env : AggEnv) (domain : String) : WhoisOutput :=
  match env.whoisRaw domain with
  | .error e => .failure domain e
  | .ok w =>
    match w.creation_date with
    | .many [] => .failure domain "list index out of range"
    | cd =>
      let cdo : Option Int :=
        match cd with
        | .absent => none
        | .one d => some d
        | .many ds => ds.head?
      let age_days : Int :=
        match cdo with
        | some d => env.nowDay - d
        | none => -1
      let privacy :=
        (!w.text.isEmpty) &&
        privacyKeywords.any (fun k => containsSub k (w.text.map Char.toLower))
      .success ⟨domain, cdo, age_days, w.registrar, privacy⟩

/-- The fixed record-type list of src/mcp/tools/dns.py:9. -/
def dnsRecordTypes : List String := ["A", "MX", "NS", "TXT"]

/-- `get_dns_records` (src/mcp/tools/dns.py:4-18): each record type is
resolved independently, a per-type failure yields `[]` for that type only;
the outer `except` (modelled by `.failure`) is unreachable. -/
def get_dns_records (env : AggEnv) (domain : String) : DnsOutput :=
  .records (dnsRecordTypes.map fun rt =>
    (rt, match env.resolve domain rt with
         | .ok answers => answers
         | .error _ => []))

/-! ### Evidence aggregator (src/agents/link_analyzer_agent.py)

`_call_mcp` posts to the in-process MCP routes (src/app.py:463-498), which
invoke `whois_lookup` / `fetch_url` / `extract_page_signals` directly; the
HTTP hop is modelled as that direct invocation. -/

/-- One element of the findings list returned by
`LinkAnalyzerAgent.analyze`: the Gemini-merged analysis, or — when the
merge `try` block raises — the `{url, error, raw_evidence}` fallback dict
(src/agents/link_analyzer_agent.py:96-106). -/
inductive LinkFinding
  | merged (m : MergedFact)
  | failureFallback (url : String) (error : String) (fetch : FetchOutput)
      (signals : SignalsResult) (whois : WhoisOutput)
  deriving DecidableEq, Repr

/-- The `fetch_result` local of the per-URL loop
(src/agents/link_analyzer_agent.py:33). -/
def fetchResultOf (env : AggEnv) (url : String) : FetchOutput :=
  fetch_url env url

/-- `fetch_result.get("html_content", "")`
(src/agents/link_analyzer_agent.py:38). -/
def htmlOf (env : AggEnv) (url : String) : List Char :=
  match fetchResultOf env url with
  | .success p => p.html_content
  | .failure _ _ => []

/-- The `signals_result` local: the `/mcp/signals` call
(src/agents/link_analyzer_agent.py:36-39). -/
def signalsResultOf (env : AggEnv) (url : String) : SignalsResult :=
  extract_page_signals env url (some (htmlOf env url))

/-- The `whois_result` local: `domain = urlparse(url).netloc` followed by
the `/mcp/whois` call (src/agents/link_analyzer_agent.py:42-43). The
`urlparse` line can raise (`.error`); the whois call itself never does. -/
def whoisResultOf (env : AggEnv) (url : String) : Except String WhoisOutput :=
  match env.netloc url with
  | .error e => .error e
  | .ok domain => .ok (whois_lookup env domain)

/-- The rest of one loop iteration once the host parse returned `domain`:
the Gemini merge `try` block, with the `{url, error, raw_evidence}`
fallback (src/agents/link_analyzer_agent.py:43-106). -/
def analyzeUrlOk (env : AggEnv) (url domain : String) : LinkFinding :=
  let whois_result := whois_lookup env domain
  match env.gemini url (fetchResultOf env url) (signalsResultOf env url)
        whois_result with
  | .ok m => .merged m
  | .error e =>
    .failureFallback url e (fetchResultOf env url) (signalsResultOf env url)
      whois_result

/-- One iteration of the `for url in urls:` loop of
`LinkAnalyzerAgent.analyze` (src/agents/link_analyzer_agent.py:31-106):
the fetch and signals calls are absorbed into `analyzeUrlOk`'s arguments,
and a raise of `urlparse(url).netloc` (line 42, outside any `try`)
propagates out of the iteration. -/
def analyzeUrl (env : AggEnv) (url : String) : Except String LinkFinding :=
  match env.netloc url with
  | .error e => .error e
  | .ok domain => .ok (analyzeUrlOk env url domain)

/-- The accumulator loop (`findings = []; for url in urls: ...
findings.append(...)`); an iteration raising aborts the whole loop. -/
def analyzeLoop (env : AggEnv) :
    List String → List LinkFinding → Except String (List LinkFinding)
  | [], findings => .ok findings
  | url :: rest, findings =>
    match analyzeUrl env url with
    | .error e => .error e
    | .ok f => analyzeLoop env rest (findings ++ [f])

/-- `LinkAnalyzerAgent.analyze` (src/agents/link_analyzer_agent.py:25-108);
`.error` models the call raising (only the host-parse line can). -/
def analyze (env : AggEnv) (urls : List String) :
    Except String (List LinkFinding) :=
  analyzeLoop env urls []

/-- The host parsed by a successful `urlparse(url).netloc` (defaulting to
`""` where the parse raises; only used under a parse-succeeds
hypothesis). -/
def netlocD (env : AggEnv) (url : String) : String :=
  match env.netloc url with
  | .ok d => d
  | .error _ => ""

/-! ### Message artifact schema (src/schemas/message_artifact.py) -/

structure SenderInfo where
  display_name : Option String
  email : Option String
  phone : Option String
  deriving DecidableEq, Repr

structure ExtractedEntities where
  urls : List String
  emails : List String
  phones : List String
  deriving DecidableEq, Repr

structure BodyContent where
  original_text : String
  clean_text : Option String
  deriving DecidableEq, Repr

structure MessageArtifact where
  source_type : String
  sender : SenderInfo
  subject : Option String
  body : BodyContent
  extracted_entities : ExtractedEntities
  metadata : List (String × String)
  deriving DecidableEq, Repr

/-- The `brand_impersonation` sub-dict of the Extractor collaborator's
output, as read by the orchestrator (src/app.py:182). -/
structure BrandImpersonation where
  detected : Bool
  brand_name : Option String
  deriving DecidableEq, Repr

/-- The Extractor collaborator's output dict. The orchestrator only reads
`brand_impersonation.brand_name`; the remaining keys are opaque and
summarized by `raw`. -/
structure Indicators where
  brand_impersonation : Option BrandImpersonation
  raw : String
  deriving DecidableEq, Repr

/-! ### Pipeline orchestrator (src/app.py:88-264) -/

/-- The `indicators` sub-object of the final record (src/app.py:169-174). -/
structure RecordIndicators where
  urls : List String
  domains : List String
  emails : List String
  phones : List String
  deriving DecidableEq, Repr

/-- One `timeline` entry of `_generate_timeline` (src/app.py:244-264),
timestamps abstracted to second offsets from `createdAt`. -/
structure TimelineEntry where
  offsetSeconds : Nat
  label : String
  description : String
  status : String
  deriving DecidableEq, Repr

/-- `_generate_timeline` (src/app.py:244-264). -/
def generateTimeline : List TimelineEntry :=
  [⟨0, "Analysis Started", "Message received and queued for analysis", "info"⟩,
   ⟨2, "AI Scanning", "Scanning for malicious patterns and links", "info"⟩,
   ⟨4, "Complete", "Analysis finished successfully", "success"⟩]

/-- The persisted `AnalysisRecord` (src/app.py:150-191). `createdAt` /
`updatedAt` are abstracted to the run's calendar day; the float
`confidence` constant and the `mas_artifacts` debug blob are not
modelled. -/
structure AnalysisRecord where
  id : String
  createdAtDay : Int
  sourceType : String
  sourceName : String
  status : String
  threatScore : Nat
  category : String
  userSummary : String
  whyFlagged : List String
  recommendedActions : List RecommendedAction
  indicators : RecordIndicators
  timeline : List TimelineEntry
  rawContent : String
  safePreview : List Char
  impersonatedBrand : Option String
  deriving DecidableEq, Repr

/-- One entry of `EVENTS_DB[analysis_id]` (src/app.py:99-107); the
timestamp and the `details` payload are abstracted away. -/
structure AnalysisEvent where
  agentName : String
  action : String
  deriving DecidableEq, Repr

/-- Oracles for the pipeline's external collaborators. `.error e` models
the collaborator call raising `e` (src/app.py:109-147). -/
structure Env where
  /-- `IngestionAgent().process(text)`. -/
  ingest : String → Except String MessageArtifact
  /-- `ExtractorAgent().analyze(artifact)`. -/
  extractInd : MessageArtifact → Except String Indicators
  /-- Evidence-layer oracles used by `LinkAnalyzerAgent`. -/
  aggEnv : AggEnv
  /-- `ScoringAgent().calculate_score(indicators, link_findings)`. -/
  score : Indicators → List LinkFinding → Except String RiskAssessment
  /-- `ReportAgent().generate_report(...)`. -/
  report : MessageArtifact → RiskAssessment → List LinkFinding → Indicators →
           Except String String
  /-- `datetime.now()` as a calendar day (`created_at`). -/
  nowDay : Int

/-- Construction of `analysis_result` (src/app.py:150-191). When
`artifact.body.clean_text` is `None`, the slice `clean_text[:200]` raises
`TypeError`, modelled by `.error`. -/
def assembleRecord (env : Env) (analysis_id text source_type : String)
    (artifact : MessageArtifact) (inds : Indicators)
    (risk : RiskAssessment) (report_text : String) :
    Except String AnalysisRecord :=
  match artifact.body.clean_text with
  | none => .error "TypeError: 'NoneType' object is not subscriptable"
  | some ct =>
    .ok
      { id := analysis_id
        createdAtDay := env.nowDay
        sourceType := source_type
        sourceName :=
          pyOrStr artifact.sender.display_name
            (pyOrStr artifact.sender.email "Unknown")
        status := "completed"
        threatScore := risk.risk_score.getD 0
        category := mapThreatType (risk.scam_type.getD "OTHER")
        userSummary := report_text
        whyFlagged := risk.reasons.getD []
        recommendedActions := recommendedActionsOf risk
        indicators :=
          ⟨artifact.extracted_entities.urls, [],
           artifact.extracted_entities.emails,
           artifact.extracted_entities.phones⟩
        timeline := generateTimeline
        rawContent := text
        safePreview := ct.toList.take 200 ++ "...".toList
        impersonatedBrand := inds.brand_impersonation.bind (·.brand_name) }

/-- The outcome of one `run_pipeline` call: the returned/raised value, the
event list `EVENTS_DB[analysis_id]` accumulated for this run, and the
updated `ANALYSES_DB` (an association list keyed by analysis id). -/
structure PipeResult where
  result : Except String AnalysisRecord
  events : List AnalysisEvent
  db : List (String × AnalysisRecord)

/-- `run_pipeline` (src/app.py:88-200): five sequential stages with
started/completed telemetry; any raise inside the `try` appends an
`Orchestrator failed` event and re-raises; the record is inserted into
`ANALYSES_DB` only on full success. `save_data()` swallows its own errors
and is not modelled. -/
def run_pipeline (env : Env) (text source_type : String)
    (metadata : List (String × String)) (db : List (String × AnalysisRecord))
    (analysis_id : String) : PipeResult :=
  let ev0 := [AnalysisEvent.mk "IngestionAgent" "started"]
  match env.ingest text with
  | .error e => ⟨.error e, ev0 ++ [⟨"Orchestrator", "failed"⟩], db⟩
  | .ok artifact0 =>
    let artifact :=
      { artifact0 with
        source_type := source_type
        metadata :=
          if metadata.isEmpty then artifact0.metadata
          else dictUpdate artifact0.metadata metadata }
    let ev1 := ev0 ++ [⟨"IngestionAgent", "completed"⟩,
                       ⟨"ExtractorAgent", "started"⟩]
    match env.extractInd artifact with
    | .error e => ⟨.error e, ev1 ++ [⟨"Orchestrator", "failed"⟩], db⟩
    | .ok indicators =>
      let ev2 := ev1 ++ [⟨"ExtractorAgent", "completed"⟩,
                         ⟨"LinkAnalyzerAgent", "started"⟩]
      match analyze env.aggEnv artifact.extracted_entities.urls with
      | .error e => ⟨.error e, ev2 ++ [⟨"Orchestrator", "failed"⟩], db⟩
      | .ok link_findings =>
        let ev3 := ev2 ++ [⟨"LinkAnalyzerAgent", "completed"⟩,
                           ⟨"ScoringAgent", "started"⟩]
        match env.score indicators link_findings with
        | .error e => ⟨.error e, ev3 ++ [⟨"Orchestrator", "failed"⟩], db⟩
        | .ok risk =>
          let ev4 := ev3 ++ [⟨"ScoringAgent", "completed"⟩,
                             ⟨"ReportAgent", "started"⟩]
          match env.report artifact risk link_findings indicators with
          | .error e => ⟨.error e, ev4 ++ [⟨"Orchestrator", "failed"⟩], db⟩
          | .ok report_text =>
            let ev5 := ev4 ++ [⟨"ReportAgent", "completed"⟩]
            match assembleRecord env analysis_id text source_type artifact
                  indicators risk report_text with
            | .error e => ⟨.error e, ev5 ++ [⟨"Orchestrator", "failed"⟩], db⟩
            | .ok record =>
              ⟨.ok record, ev5, db ++ [(analysis_id, record)]⟩

/-! ### Result store statistics (src/app.py:341-426) -/

/-- One `trendData` entry, dates abstracted to calendar-day integers. -/
structure TrendEntry where
  dateDay : Int
  count : Nat
  highRiskCount : Nat
  deriving DecidableEq, Repr

/-- The fields of the `/api/stats` response proved about here; the
remaining aggregates (topCategory, categoryBreakdown, topBrands,
recentHighRisk, window bounds) are computed alongside in the source but
not referenced by any claim. -/
structure StatsSummary where
  totalAnalyses : Nat
  highRiskCount : Nat
  avgThreatScore : Nat
  trendData : List TrendEntry
  deriving DecidableEq, Repr

/-- `get_stats` (src/app.py:341-426). `avgThreatScore` is
`int(sum/total)`: exact float division then truncation, i.e. `ℕ`
division of the (non-negative) scores. `trendData` initializes the 7 days
`now-6 .. now` to zero and counts records whose `createdAt` day matches a
window key. -/
def get_stats (nowDay : Int) (db : List (String × AnalysisRecord)) :
    StatsSummary :=
  let items := db.map Prod.snd
  let total := items.length
  let high_risk := (items.filter (fun i => decide (70 ≤ i.threatScore))).length
  let avg_score :=
    if 0 < total then (items.map (·.threatScore)).sum / total else 0
  let trend_data := (List.range 7).map fun j =>
    let d : Int := nowDay - (6 - (j : Int))
    { dateDay := d
      count := (items.filter (fun i => decide (i.createdAtDay = d))).length
      highRiskCount :=
        (items.filter
          (fun i => decide (i.createdAtDay = d) &&
                    decide (70 ≤ i.threatScore))).length : TrendEntry }
  { totalAnalyses := total
    highRiskCount := high_risk
    avgThreatScore := avg_score
    trendData := trend_data }

/-- The arithmetic mean of `threatScore` over the store, as the spec
states it (ℚ-valued; this is the spec's words, to be compared with
`get_stats`). -/
def avgSpec (db : List (String × AnalysisRecord)) : ℚ :=
  ((((db.map Prod.snd).map (·.threatScore)).sum : ℕ) : ℚ) / (db.length : ℚ)

/-! ### Shared lemmas -/

theorem lastOfConcat {α : Type} (l : List α) (a : α) :
    (l ++ [a]).getLast? = some a := by
  induction l with
  | nil => rfl
  | cons x xs ih =>
    cases xs with
    | nil => rfl
    | cons y ys => simp [List.getLast?]

theorem analyzeLoop_ok (env : AggEnv) (urls : List String)
    (acc : List LinkFinding)
    (h : ∀ u ∈ urls, ∃ d, env.netloc u = .ok d) :
    analyzeLoop env urls acc =
      .ok (acc ++ urls.map fun u => analyzeUrlOk env u (netlocD env u)) := by
  induction urls generalizing acc with
  | nil => simp [analyzeLoop]
  | cons u rest ih =>
    obtain ⟨d, hd⟩ := h u (by simp)
    have hnd : netlocD env u = d := by rw [netlocD, hd]
    have hau : analyzeUrl env u = .ok (analyzeUrlOk env u d) := by
      rw [analyzeUrl, hd]
    rw [analyzeLoop, hau]
    show analyzeLoop env rest (acc ++ [analyzeUrlOk env u d]) = _
    rw [ih _ (fun x hx => h x (List.mem_cons_of_mem _ hx)),
      List.map_cons, hnd]
    simp

/-! ### Claims -/

/-- An environment realizing `urlparse`'s `ValueError` on a bracket URL
(`urlparse("http://[abc").netloc` raises `ValueError: Invalid IPv6 URL`
in Python), with every network call failing as well. -/
def badUrlEnv : AggEnv :=
  { httpGet := fun _ => .error "Connection timeout"
    parseHtml := fun _ => ⟨[], []⟩
    netloc := fun u =>
      if u = "http://[abc" then .error "ValueError: Invalid IPv6 URL"
      else .ok "paypal-verify.com"
    whoisRaw := fun _ => .error "No match for domain"
    nowDay := 20000
    resolve := fun _ _ => .error "NXDOMAIN"
    gemini := fun _ _ _ _ => .error "merge failed" }

/-- Counterexample to C2 as stated: for the bracket input URL the host
parse `urlparse(url).netloc` raises (outside any `try`), the whole
`analyze` call raises, and no findings list — in particular none with one
finding per input URL — is returned. -/
theorem claim_C2_counterexample :
    analyze badUrlEnv ["http://[abc"] =
      .error "ValueError: Invalid IPv6 URL" ∧
    ¬ ∃ fs, analyze badUrlEnv ["http://[abc"] = .ok fs ∧
      fs.length = ["http://[abc"].length := by
  refine ⟨rfl, ?_⟩
  rintro ⟨fs, hfs, -⟩
  rw [show analyze badUrlEnv ["http://[abc"] =
        .error "ValueError: Invalid IPv6 URL" from rfl] at hfs
  exact Except.noConfusion hfs

/-- C2 amended: for every list of input URLs on each of which the host
parse `urlparse(url).netloc` succeeds, `LinkAnalyzerAgent.analyze` returns
(does not raise) exactly one finding per input URL, positionally in input
order (the i-th finding is the one computed for the i-th URL and its
parsed host), for every behavior of the fetch/signals/whois adapters and
of the Gemini merge step (all quantified inside `env`). -/
theorem claim_C2_one_finding_per_url (env : AggEnv) (urls : List String)
    (h : ∀ u ∈ urls, ∃ d, env.netloc u = .ok d) :
    analyze env urls =
      .ok (urls.map fun u => analyzeUrlOk env u (netlocD env u)) ∧
    (urls.map fun u => analyzeUrlOk env u (netlocD env u)).length =
      urls.length := by
  constructor
  · rw [analyze, analyzeLoop_ok env urls [] h, List.nil_append]
  · rw [List.length_map]

/-- Witness for C2 amended at a concrete single-URL list whose host parse
succeeds (in `badUrlEnv`, every non-bracket URL parses). -/
theorem claim_C2_witness :
    analyze badUrlEnv ["http://paypal-verify.com/login"] =
      .ok (["http://paypal-verify.com/login"].map fun u =>
        analyzeUrlOk badUrlEnv u (netlocD badUrlEnv u)) ∧
    (["http://paypal-verify.com/login"].map fun u =>
      analyzeUrlOk badUrlEnv u (netlocD badUrlEnv u)).length =
      ["http://paypal-verify.com/login"].length :=
  claim_C2_one_finding_per_url badUrlEnv ["http://paypal-verify.com/login"]
    (fun u hu => ⟨"paypal-verify.com", by
      rw [List.mem_singleton.mp hu]
      rfl⟩)

/-- C3: each of the three evidence adapters returns either its
source-specific success payload or an error dictionary; in this embedding
a raise past the boundary would be a value outside these two shapes, and
none exists for any oracle behavior. -/
theorem claim_C3_adapters_never_raise (env : AggEnv)
    (url domain dnsDomain : String) :
    ((∃ p, fetch_url env url = .success p) ∨
     (∃ e, fetch_url env url = .failure url e)) ∧
    ((∃ p, whois_lookup env domain = .success p) ∨
     (∃ e, whois_lookup env domain = .failure domain e)) ∧
    ((∃ recs, get_dns_records env dnsDomain = .records recs) ∨
     (∃ e, get_dns_records env dnsDomain = .failure e)) := by
  refine ⟨?_, ?_, Or.inl ⟨_, rfl⟩⟩
  · rcases h : env.httpGet url with e | r
    · exact Or.inr ⟨e, by simp [fetch_url, h]⟩
    · exact Or.inl ⟨⟨r.finalUrl, r.redirectChain, r.statusCode, r.headers,
        r.text.take 10000⟩, by simp [fetch_url, h]⟩
  · rcases h : env.whoisRaw domain with e | w
    · exact Or.inr ⟨e, by simp [whois_lookup, h]⟩
    · rcases hcd : w.creation_date with _ | d | ds
      · exact Or.inl ⟨⟨domain, none, -1, w.registrar,
          !w.text.isEmpty &&
            privacyKeywords.any fun k =>
              containsSub k (w.text.map Char.toLower)⟩,
          by simp [whois_lookup, h, hcd]⟩
      · exact Or.inl ⟨⟨domain, some d, env.nowDay - d, w.registrar,
          !w.text.isEmpty &&
            privacyKeywords.any fun k =>
              containsSub k (w.text.map Char.toLower)⟩,
          by simp [whois_lookup, h, hcd]⟩
      · cases ds with
        | nil =>
          exact Or.inr ⟨"list index out of range",
            by simp [whois_lookup, h, hcd]⟩
        | cons d2 rest =>
          exact Or.inl ⟨⟨domain, some d2, env.nowDay - d2, w.registrar,
            !w.text.isEmpty &&
              privacyKeywords.any fun k =>
                containsSub k (w.text.map Char.toLower)⟩,
            by simp [whois_lookup, h, hcd]⟩

/-- C4: `_map_threat_type` performs case-insensitive substring matching
with precedence phishing > malware/virus > scam/social > other. The fixed
taxonomy values are the UI ThreatType names: `PHISHING` is realized as
`"FAKE_EMAIL_PHISHING"`, `MALICIOUS_LINK` as
`"FAKE_WEBSITE_MALICIOUS_LINK"`, `SOCIAL_SCAM` as
`"HIDDEN_FRAUD_RING_SOCIAL_SCAM"`, and `OTHER` as `"OTHER"`. -/
theorem claim_C4_taxonomy_precedence (s : String) :
    (OccursIn "PHISHING".toList (s.toList.map Char.toUpper) →
      mapThreatType s = "FAKE_EMAIL_PHISHING") ∧
    (¬ OccursIn "PHISHING".toList (s.toList.map Char.toUpper) →
      (OccursIn "MALWARE".toList (s.toList.map Char.toUpper) ∨
       OccursIn "VIRUS".toList (s.toList.map Char.toUpper)) →
      mapThreatType s = "FAKE_WEBSITE_MALICIOUS_LINK") ∧
    (¬ OccursIn "PHISHING".toList (s.toList.map Char.toUpper) →
      ¬ (OccursIn "MALWARE".toList (s.toList.map Char.toUpper) ∨
         OccursIn "VIRUS".toList (s.toList.map Char.toUpper)) →
      (OccursIn "SCAM".toList (s.toList.map Char.toUpper) ∨
       OccursIn "SOCIAL".toList (s.toList.map Char.toUpper)) →
      mapThreatType s = "HIDDEN_FRAUD_RING_SOCIAL_SCAM") ∧
    (¬ OccursIn "PHISHING".toList (s.toList.map Char.toUpper) →
      ¬ (OccursIn "MALWARE".toList (s.toList.map Char.toUpper) ∨
         OccursIn "VIRUS".toList (s.toList.map Char.toUpper)) →
      ¬ (OccursIn "SCAM".toList (s.toList.map Char.toUpper) ∨
         OccursIn "SOCIAL".toList (s.toList.map Char.toUpper)) →
      mapThreatType s = "OTHER") := by
  refine ⟨fun h1 => ?_, fun h1 h2 => ?_, fun h1 h2 h3 => ?_,
          fun h1 h2 h3 => ?_⟩
  · have c1 : containsSub "PHISHING".toList (s.toList.map Char.toUpper) = true :=
      (containsSub_iff _ _).mpr h1
    simp only [mapThreatType]
    rw [if_pos c1]
  · have c1 : ¬ containsSub "PHISHING".toList (s.toList.map Char.toUpper) = true :=
      fun hc => h1 ((containsSub_iff _ _).mp hc)
    have c2 : (containsSub "MALWARE".toList (s.toList.map Char.toUpper) ||
               containsSub "VIRUS".toList (s.toList.map Char.toUpper)) = true := by
      rcases h2 with h | h
      · rw [(containsSub_iff _ _).mpr h, Bool.true_or]
      · rw [(containsSub_iff _ _).mpr h, Bool.or_true]
    simp only [mapThreatType]
    rw [if_neg c1, if_pos c2]
  · have c1 : ¬ containsSub "PHISHING".toList (s.toList.map Char.toUpper) = true :=
      fun hc => h1 ((containsSub_iff _ _).mp hc)
    have c2 : ¬ (containsSub "MALWARE".toList (s.toList.map Char.toUpper) ||
                 containsSub "VIRUS".toList (s.toList.map Char.toUpper)) = true := by
      intro hc
      rw [Bool.or_eq_true] at hc
      rcases hc with h | h
      · exact h2 (Or.inl ((containsSub_iff _ _).mp h))
      · exact h2 (Or.inr ((containsSub_iff _ _).mp h))
    have c3 : (containsSub "SCAM".toList (s.toList.map Char.toUpper) ||
               containsSub "SOCIAL".toList (s.toList.map Char.toUpper)) = true := by
      rcases h3 with h | h
      · rw [(containsSub_iff _ _).mpr h, Bool.true_or]
      · rw [(containsSub_iff _ _).mpr h, Bool.or_true]
    simp only [mapThreatType]
    rw [if_neg c1, if_neg c2, if_pos c3]
  · have c1 : ¬ containsSub "PHISHING".toList (s.toList.map Char.toUpper) = true :=
      fun hc => h1 ((containsSub_iff _ _).mp hc)
    have c2 : ¬ (containsSub "MALWARE".toList (s.toList.map Char.toUpper) ||
                 containsSub "VIRUS".toList (s.toList.map Char.toUpper)) = true := by
      intro hc
      rw [Bool.or_eq_true] at hc
      rcases hc with h | h
      · exact h2 (Or.inl ((containsSub_iff _ _).mp h))
      · exact h2 (Or.inr ((containsSub_iff _ _).mp h))
    have c3 : ¬ (containsSub "SCAM".toList (s.toList.map Char.toUpper) ||
                 containsSub "SOCIAL".toList (s.toList.map Char.toUpper)) = true := by
      intro hc
      rw [Bool.or_eq_true] at hc
      rcases hc with h | h
      · exact h3 (Or.inl ((containsSub_iff _ _).mp h))
      · exact h3 (Or.inr ((containsSub_iff _ _).mp h))
    simp only [mapThreatType]
    rw [if_neg c1, if_neg c2, if_neg c3]

/-- Witness for C4 at a concrete lowercase input: the phishing branch
fires case-insensitively and takes precedence over the scam branch. -/
theorem claim_C4_witness :
    mapThreatType "phishing scam" = "FAKE_EMAIL_PHISHING" :=
  (claim_C4_taxonomy_precedence "phishing scam").1
    ((containsSub_iff _ _).mp (by decide))

/-- C6: when the scoring stage supplies no `recommended_actions`, the
orchestrator derives the default list from the numeric score with
thresholds `> 70` (two high-priority actions), `30 < s ≤ 70` (one
"med"-priority action), `≤ 30` (one low-priority action). -/
theorem claim_C6_default_recommendations (risk : RiskAssessment)
    (h : risk.recommended_actions = none) :
    recommendedActionsOf risk = generateRecommendations risk ∧
    (70 < risk.risk_score.getD 0 →
      recommendedActionsOf risk =
        [⟨"Do not click any links", "high",
          "High risk of phishing or malware."⟩,
         ⟨"Block the sender", "high", "Prevent further contact."⟩]) ∧
    (30 < risk.risk_score.getD 0 → risk.risk_score.getD 0 ≤ 70 →
      recommendedActionsOf risk =
        [⟨"Verify sender identity", "med",
          "Contact them through a separate, trusted channel."⟩]) ∧
    (risk.risk_score.getD 0 ≤ 30 →
      recommendedActionsOf risk =
        [⟨"No immediate action needed", "low",
          "Message appears safe, but stay vigilant."⟩]) := by
  have hsel : recommendedActionsOf risk = generateRecommendations risk := by
    simp [recommendedActionsOf, h]
  refine ⟨hsel, fun h70 => ?_, fun h30 h70 => ?_, fun h30 => ?_⟩
  · rw [hsel]
    simp only [generateRecommendations]
    rw [if_pos h70]
  · rw [hsel]
    simp only [generateRecommendations]
    rw [if_neg (by omega), if_pos h30]
  · rw [hsel]
    simp only [generateRecommendations]
    rw [if_neg (by omega), if_neg (by omega)]

/-- Witness for C6 at score 80 with no supplied actions. -/
theorem claim_C6_witness :
    recommendedActionsOf ⟨some 80, none, none, none⟩ =
      [⟨"Do not click any links", "high",
        "High risk of phishing or malware."⟩,
       ⟨"Block the sender", "high", "Prevent further contact."⟩] :=
  (claim_C6_default_recommendations ⟨some 80, none, none, none⟩ rfl).2.1
    (by decide)

/-- C9: `get_stats` on the empty store returns `totalAnalyses = 0`,
`avgThreatScore = 0`, and exactly 7 trend entries, one per day of the
window ending today, all with zero counts. -/
theorem claim_C9_empty_store_stats (nowDay : Int) :
    get_stats nowDay [] =
      ⟨0, 0, 0,
       [⟨nowDay - 6, 0, 0⟩, ⟨nowDay - 5, 0, 0⟩, ⟨nowDay - 4, 0, 0⟩,
        ⟨nowDay - 3, 0, 0⟩, ⟨nowDay - 2, 0, 0⟩, ⟨nowDay - 1, 0, 0⟩,
        ⟨nowDay, 0, 0⟩]⟩ := by
  have h7 : List.range 7 = [0, 1, 2, 3, 4, 5, 6] := rfl
  simp only [get_stats, List.map_nil, List.filter_nil, List.length_nil, h7,
    List.map_cons]
  norm_num

theorem scanForms_password (forms : List HtmlForm) (acc : Bool)
    (h : forms.any (·.hasPasswordInput) = true) :
    scanForms forms acc = (true, true) := by
  induction forms generalizing acc with
  | nil => simp at h
  | cons f rest ih =>
    simp only [List.any_cons, Bool.or_eq_true] at h
    by_cases hf : f.hasPasswordInput = true
    · simp [scanForms, hf]
    · rcases h with h | h
      · exact absurd h hf
      · simp [scanForms, hf, ih _ h]

theorem scanForms_no_password (forms : List HtmlForm) (acc : Bool)
    (h : ∀ f ∈ forms, f.hasPasswordInput = false) :
    scanForms forms acc =
      (acc || forms.any (fun f => loginKeywordHit f.text), false) := by
  induction forms generalizing acc with
  | nil => simp [scanForms]
  | cons f rest ih =>
    have hf : f.hasPasswordInput = false := h f (by simp)
    rw [scanForms, if_neg (by simp [hf]),
      ih _ (fun g hg => h g (by simp [hg]))]
    simp [Bool.or_assoc]

theorem scanForms_break (pre : List HtmlForm) (f : HtmlForm)
    (post : List HtmlForm) (acc : Bool)
    (hpre : ∀ g ∈ pre, g.hasPasswordInput = false)
    (hf : f.hasPasswordInput = true) :
    scanForms (pre ++ f :: post) acc = (true, true) := by
  induction pre generalizing acc with
  | nil => simp [scanForms, hf]
  | cons g rest ih =>
    have hg : g.hasPasswordInput = false := hpre g (by simp)
    rw [List.cons_append, scanForms, if_neg (by simp [hg])]
    exact ih _ (fun x hx => hpre x (List.mem_cons_of_mem _ hx))

/-- C7: for the page signal extractor, (1) any form with a password input
sets both detection flags; (2) scanning short-circuits at the first such
form — the forms after it do not affect any output field; (3) absent any
password field, `login_form_detected` holds exactly when some form's text
contains "login" or "sign in" case-insensitively; (4)
`brand_keywords_found` contains exactly the brands of the fixed vocabulary
occurring case-insensitively in the page text (all of them, not just the
first). -/
theorem claim_C7_signal_extraction (url : List Char) (soup : Soup) :
    ((soup.forms.any (·.hasPasswordInput)) = true →
      (extractSignalsOfSoup url soup).login_form_detected = true ∧
      (extractSignalsOfSoup url soup).password_field_detected = true) ∧
    (∀ pre f post post',
      soup.forms = pre ++ f :: post →
      (∀ g ∈ pre, g.hasPasswordInput = false) →
      f.hasPasswordInput = true →
      extractSignalsOfSoup url { soup with forms := pre ++ f :: post' } =
        extractSignalsOfSoup url soup) ∧
    ((∀ f ∈ soup.forms, f.hasPasswordInput = false) →
      ((extractSignalsOfSoup url soup).login_form_detected = true ↔
        ∃ f ∈ soup.forms,
          OccursIn "login".toList (f.text.map Char.toLower) ∨
          OccursIn "sign in".toList (f.text.map Char.toLower))) ∧
    (∀ b, b ∈ (extractSignalsOfSoup url soup).brand_keywords_found ↔
      b ∈ commonBrands ∧ OccursIn b (soup.text.map Char.toLower)) := by
  refine ⟨fun h => ?_, fun pre f post post' hforms hpre hf => ?_,
          fun hnone => ?_, fun b => ?_⟩
  · rw [extractSignalsOfSoup, scanForms_password _ _ h]
    exact ⟨rfl, rfl⟩
  · have h1 : scanForms (pre ++ f :: post') false = (true, true) :=
      scanForms_break _ _ _ _ hpre hf
    have h2 : scanForms soup.forms false = (true, true) := by
      rw [hforms]
      exact scanForms_break _ _ _ _ hpre hf
    have hne : (pre ++ f :: post').isEmpty = false := by
      cases pre <;> rfl
    have hne2 : soup.forms.isEmpty = false := by
      rw [hforms]
      cases pre <;> rfl
    simp [extractSignalsOfSoup, h1, h2, hne, hne2]
  · rw [extractSignalsOfSoup, scanForms_no_password _ _ hnone]
    simp only [Bool.false_or, List.any_eq_true, loginKeywordHit,
      Bool.or_eq_true, containsSub_iff]
  · simp only [extractSignalsOfSoup, List.mem_filter, containsSub_iff]

/-- Witness for C7 at a concrete page: a form with a password input sets
both flags. -/
theorem claim_C7_witness :
    (extractSignalsOfSoup "http://x.example".toList
      ⟨[⟨true, "enter your password".toList⟩],
       "welcome to paypal".toList⟩).login_form_detected = true ∧
    (extractSignalsOfSoup "http://x.example".toList
      ⟨[⟨true, "enter your password".toList⟩],
       "welcome to paypal".toList⟩).password_field_detected = true :=
  (claim_C7_signal_extraction "http://x.example".toList
    ⟨[⟨true, "enter your password".toList⟩],
     "welcome to paypal".toList⟩).1 (by decide)

/-- C8 amended: when fetch fails the aggregator still calls the signal
extractor, passing the empty string as content; the extractor treats empty
content as missing and performs its own fetch of the URL (so with a
failing fetch it returns an error payload rather than signals extracted
from empty content); and when the URL's host parse succeeds, the
registration-lookup adapter is still invoked on that host — when the host
parse raises, the per-URL analysis itself raises before any whois call. -/
theorem claim_C8_fetch_failure_flow (env : AggEnv) (url e : String)
    (h : fetch_url env url = .failure url e) :
    htmlOf env url = [] ∧
    signalsResultOf env url = extract_page_signals env url (some []) ∧
    signalsResultOf env url = .failure e ∧
    (∀ d, env.netloc url = .ok d →
      whoisResultOf env url = .ok (whois_lookup env d)) ∧
    (∀ e2, env.netloc url = .error e2 →
      analyzeUrl env url = .error e2) := by
  have hh : htmlOf env url = [] := by
    rw [htmlOf, fetchResultOf, h]
  refine ⟨hh, ?_, ?_, fun d hd => ?_, fun e2 he2 => ?_⟩
  · rw [signalsResultOf, hh]
  · rw [signalsResultOf, hh]
    simp [extract_page_signals, h]
  · rw [whoisResultOf, hd]
  · rw [analyzeUrl, he2]

/-- A concrete evidence environment in which every network call fails
(the host parse succeeds; `badUrlEnv` covers its raising). -/
def c8Env : AggEnv :=
  { httpGet := fun _ => .error "Connection timeout"
    parseHtml := fun _ => ⟨[], []⟩
    netloc := fun _ => .ok "paypal-verify.com"
    whoisRaw := fun _ => .error "No match for domain"
    nowDay := 20000
    resolve := fun _ _ => .error "NXDOMAIN"
    gemini := fun _ _ _ _ => .error "merge failed" }

/-- The URL used by the C8 counterexample. -/
def c8Url : String := "http://paypal-verify.com/login"

/-- Counterexample to C8 as stated, in both parts: (a) with a failing
fetch, the signal extractor does not operate on the empty fetched content
(which would give the parsed-empty-page payload); it performs its own
fetch and returns that fetch's error payload instead; (b) for a
fetch-failing bracket URL the host parse raises, so the registration
lookup is never invoked — the per-URL analysis raises first. -/
theorem claim_C8_counterexample :
    fetch_url c8Env c8Url = .failure c8Url "Connection timeout" ∧
    signalsResultOf c8Env c8Url ≠
      .payload (extractSignalsOfSoup c8Url.toList (c8Env.parseHtml [])) ∧
    fetch_url badUrlEnv "http://[abc" =
      .failure "http://[abc" "Connection timeout" ∧
    whoisResultOf badUrlEnv "http://[abc" =
      .error "ValueError: Invalid IPv6 URL" ∧
    analyzeUrl badUrlEnv "http://[abc" =
      .error "ValueError: Invalid IPv6 URL" := by
  refine ⟨rfl, ?_, rfl, rfl, rfl⟩
  intro hcontra
  have h1 : signalsResultOf c8Env c8Url = .failure "Connection timeout" := rfl
  rw [h1] at hcontra
  exact SignalsResult.noConfusion hcontra

/-- Witness for C8 amended in the concrete all-failing environment, with
both host-parse hypotheses discharged concretely. -/
theorem claim_C8_witness :
    htmlOf c8Env c8Url = [] ∧
    signalsResultOf c8Env c8Url = extract_page_signals c8Env c8Url (some []) ∧
    signalsResultOf c8Env c8Url = .failure "Connection timeout" ∧
    whoisResultOf c8Env c8Url =
      .ok (whois_lookup c8Env "paypal-verify.com") :=
  have t := claim_C8_fetch_failure_flow c8Env c8Url "Connection timeout" rfl
  ⟨t.1, t.2.1, t.2.2.1, t.2.2.2.1 "paypal-verify.com" rfl⟩

/-- A minimal concrete record used by the statistics counterexample. -/
def sampleRecord (id : String) (score : Nat) : AnalysisRecord :=
  { id := id, createdAtDay := 0, sourceType := "email",
    sourceName := "Unknown", status := "completed", threatScore := score,
    category := "OTHER", userSummary := "", whyFlagged := [],
    recommendedActions := [], indicators := ⟨[], [], [], []⟩,
    timeline := generateTimeline, rawContent := "", safePreview := [],
    impersonatedBrand := none }

/-- A two-record store whose mean score is not an integer. -/
def statsCounterDb : List (String × AnalysisRecord) :=
  [("a", sampleRecord "a" 0), ("b", sampleRecord "b" 1)]

/-- Counterexample to C5 as stated: on a store with scores 0 and 1 the
endpoint returns `int(0.5) = 0`, which is not the arithmetic mean 1/2. -/
theorem claim_C5_counterexample :
    ¬ (((get_stats 0 statsCounterDb).avgThreatScore : ℚ) =
        avgSpec statsCounterDb) := by
  have h1 : (get_stats 0 statsCounterDb).avgThreatScore = 0 := rfl
  have h2 : avgSpec statsCounterDb = 1 / 2 := by
    norm_num [avgSpec, statsCounterDb, sampleRecord]
  rw [h1, h2]
  norm_num

/-- C5 amended: `avgThreatScore` is the arithmetic mean truncated to an
integer (`int(sum/total)`, i.e. the floor for these non-negative scores),
and 0 when the store is empty. -/
theorem claim_C5_truncated_mean (nowDay : Int)
    (db : List (String × AnalysisRecord)) :
    (get_stats nowDay db).avgThreatScore = ⌊avgSpec db⌋₊ ∧
    (db = [] → (get_stats nowDay db).avgThreatScore = 0) := by
  constructor
  · rcases eq_or_ne db [] with rfl | hne
    · simp [get_stats, avgSpec]
    · have hpos : 0 < db.length := List.length_pos.mpr hne
      have hitems : (db.map Prod.snd).length = db.length := List.length_map _ _
      simp only [get_stats, avgSpec]
      rw [if_pos (by simpa [hitems] using hpos), hitems,
        Nat.floor_div_nat, Nat.floor_natCast]
  · rintro rfl
    rfl

/-- Witness for C5 amended: the empty-store clause discharged at the
concrete empty store. -/
theorem claim_C5_witness :
    (get_stats 0 ([] : List (String × AnalysisRecord))).avgThreatScore = 0 :=
  (claim_C5_truncated_mean 0 []).2 rfl

/-- Every `run_pipeline` call either completes, inserting exactly its
record under its id, or fails with an `Orchestrator failed` event appended
last and the store left untouched. -/
theorem run_pipeline_shape (env : Env) (text source_type : String)
    (metadata : List (String × String)) (db : List (String × AnalysisRecord))
    (analysis_id : String) :
    (∃ r ev, run_pipeline env text source_type metadata db analysis_id =
      ⟨.ok r, ev, db ++ [(analysis_id, r)]⟩) ∨
    (∃ e ev, run_pipeline env text source_type metadata db analysis_id =
      ⟨.error e, ev ++ [⟨"Orchestrator", "failed"⟩], db⟩) := by
  simp only [run_pipeline]
  repeat' split
  all_goals first
    | exact Or.inl ⟨_, _, rfl⟩
    | exact Or.inr ⟨_, _, rfl⟩

/-- C1: a run in which some stage raises (surfacing as
`result = .error e`, which is also the propagation of that error to the
caller) appends an `Orchestrator failed` event to its event list, persists
no record — the store is exactly as before — so a fresh id never appears
among the stored ids and the statistics are unchanged. -/
theorem claim_C1_failed_run (env : Env) (text source_type : String)
    (metadata : List (String × String)) (db : List (String × AnalysisRecord))
    (analysis_id : String) (e : String)
    (h : (run_pipeline env text source_type metadata db analysis_id).result =
      .error e) :
    (run_pipeline env text source_type metadata db analysis_id).events.getLast? =
      some ⟨"Orchestrator", "failed"⟩ ∧
    (run_pipeline env text source_type metadata db analysis_id).db = db ∧
    (analysis_id ∉ db.map Prod.fst →
      analysis_id ∉
        (run_pipeline env text source_type metadata db analysis_id).db.map
          Prod.fst) ∧
    (∀ nowDay,
      get_stats nowDay
          (run_pipeline env text source_type metadata db analysis_id).db =
        get_stats nowDay db) := by
  rcases run_pipeline_shape env text source_type metadata db analysis_id with
    ⟨r, ev, hr⟩ | ⟨e2, ev, hr⟩
  · rw [hr] at h
    simp at h
  · rw [hr]
    exact ⟨lastOfConcat _ _, rfl, fun hm => hm, fun _ => rfl⟩

/-- A concrete ingested artifact (with `clean_text` absent). -/
def sampleArtifact : MessageArtifact :=
  { source_type := "email"
    sender := ⟨some "PayPal Security", some "sec@paypal-verify.com", none⟩
    subject := some "Verify your account"
    body := ⟨"Please verify your PayPal account", none⟩
    extracted_entities := ⟨["http://paypal-verify.com/login"], [], []⟩
    metadata := [] }

/-- A concrete extractor output. -/
def sampleInds : Indicators := ⟨some ⟨true, some "PayPal"⟩, "urgency detected"⟩

/-- A pipeline environment whose Scoring collaborator raises. -/
def c1Env : Env :=
  { ingest := fun _ => .ok sampleArtifact
    extractInd := fun _ => .ok sampleInds
    aggEnv := c8Env
    score := fun _ _ => .error "Scoring collaborator raised"
    report := fun _ _ _ _ => .ok "report"
    nowDay := 20000 }

/-- Witness for C1: a concrete run whose Scoring stage raises. -/
theorem claim_C1_witness :
    (run_pipeline c1Env "Please verify your PayPal account" "email" [] []
        "id-1").events.getLast? = some ⟨"Orchestrator", "failed"⟩ ∧
    (run_pipeline c1Env "Please verify your PayPal account" "email" [] []
        "id-1").db = [] ∧
    ("id-1" ∉ ([] : List (String × AnalysisRecord)).map Prod.fst →
      "id-1" ∉
        (run_pipeline c1Env "Please verify your PayPal account" "email" [] []
          "id-1").db.map Prod.fst) ∧
    (∀ nowDay,
      get_stats nowDay
          (run_pipeline c1Env "Please verify your PayPal account" "email" []
            [] "id-1").db =
        get_stats nowDay ([] : List (String × AnalysisRecord))) :=
  claim_C1_failed_run c1Env "Please verify your PayPal account" "email" [] []
    "id-1" "Scoring collaborator raised" rfl

/-- C10: when every stage succeeds (including the link-analysis stage,
whose host parses must not raise) but ingestion produced an artifact with
`clean_text = None`, record assembly raises while building `safePreview`
from `clean_text[:200]`: the run fails after `completed` events were
logged for all five stages, and no record is persisted. -/
theorem claim_C10_assembly_not_total (env : Env) (text source_type : String)
    (metadata : List (String × String)) (db : List (String × AnalysisRecord))
    (analysis_id : String) (a : MessageArtifact)
    (hI : env.ingest text = .ok a)
    (hclean : a.body.clean_text = none)
    (hE : ∀ x, ∃ r, env.extractInd x = .ok r)
    (hL : ∃ fs, analyze env.aggEnv a.extracted_entities.urls = .ok fs)
    (hS : ∀ i f, ∃ r, env.score i f = .ok r)
    (hR : ∀ x r f i, ∃ s, env.report x r f i = .ok s) :
    (run_pipeline env text source_type metadata db analysis_id).result =
      .error "TypeError: 'NoneType' object is not subscriptable" ∧
    (run_pipeline env text source_type metadata db analysis_id).db = db ∧
    (run_pipeline env text source_type metadata db analysis_id).events.map
        (fun ev => (ev.agentName, ev.action)) =
      [("IngestionAgent", "started"), ("IngestionAgent", "completed"),
       ("ExtractorAgent", "started"), ("ExtractorAgent", "completed"),
       ("LinkAnalyzerAgent", "started"), ("LinkAnalyzerAgent", "completed"),
       ("ScoringAgent", "started"), ("ScoringAgent", "completed"),
       ("ReportAgent", "started"), ("ReportAgent", "completed"),
       ("Orchestrator", "failed")] := by
  obtain ⟨ind, hEi⟩ := hE
    ({ a with
       source_type := source_type
       metadata := if metadata.isEmpty then a.metadata
                   else dictUpdate a.metadata metadata })
  obtain ⟨fs, hLi⟩ := hL
  obtain ⟨risk, hSi⟩ := hS ind fs
  obtain ⟨rep, hRi⟩ := hR
    ({ a with
       source_type := source_type
       metadata := if metadata.isEmpty then a.metadata
                   else dictUpdate a.metadata metadata })
    risk fs ind
  refine ⟨?_, ?_, ?_⟩ <;>
    · simp only [run_pipeline, hI, hEi, hLi, hSi, hRi, assembleRecord,
        hclean]
      try rfl

/-- A pipeline environment whose stages all succeed on a
`clean_text = None` artifact. -/
def c10Env : Env :=
  { ingest := fun _ => .ok sampleArtifact
    extractInd := fun _ => .ok sampleInds
    aggEnv := c8Env
    score := fun _ _ => .ok ⟨some 85, some "Phishing", none, none⟩
    report := fun _ _ _ _ => .ok "High-risk phishing attempt."
    nowDay := 20000 }

/-- Witness for C10: the concrete all-stages-succeed run on the
`clean_text = None` artifact. -/
theorem claim_C10_witness :
    (run_pipeline c10Env "Please verify your PayPal account" "email" [] []
        "id-2").result =
      .error "TypeError: 'NoneType' object is not subscriptable" ∧
    (run_pipeline c10Env "Please verify your PayPal account" "email" [] []
        "id-2").db = [] ∧
    (run_pipeline c10Env "Please verify your PayPal account" "email" [] []
        "id-2").events.map (fun ev => (ev.agentName, ev.action)) =
      [("IngestionAgent", "started"), ("IngestionAgent", "completed"),
       ("ExtractorAgent", "started"), ("ExtractorAgent", "completed"),
       ("LinkAnalyzerAgent", "started"), ("LinkAnalyzerAgent", "completed"),
       ("ScoringAgent", "started"), ("ScoringAgent", "completed"),
       ("ReportAgent", "started"), ("ReportAgent", "completed"),
       ("Orchestrator", "failed")] :=
  claim_C10_assembly_not_total c10Env "Please verify your PayPal account"
    "email" [] [] "id-2" sampleArtifact rfl rfl
    (fun _ => ⟨sampleInds, rfl⟩)
    ⟨_, rfl⟩
    (fun _ _ => ⟨⟨some 85, some "Phishing", none, none⟩, rfl⟩)
    (fun _ _ _ _ => ⟨"High-risk phishing attempt.", rfl⟩)

end AntiFish
